import Mathlib

/-!
Shallow embedding of `src/icons/create_icons.py`.

The script draws a network/monitor glyph onto a transparent RGBA canvas
using PIL primitives (`Image.new`, `ImageDraw.ellipse`, `ImageDraw.line`)
and saves one PNG per size in {16, 32, 48, 128}.

The embedding has two layers:
* a command trace `create_icon_cmds`, the exact sequence of drawing calls
  issued by `create_icon`, with the exact arguments of the source;
* a pixel interpreter `apply_cmd` giving each command its raster effect,
  modelling the PIL primitives: `ellipse` fills the pixels inside the
  ellipse inscribed in the bounding box (outline band of the given width
  drawn inward along the boundary), `line` covers the pixels within half
  the stroke width of the segment (all segments in this script are
  axis-aligned).  Integer coordinates are doubled inside the predicates so
  that all tests are exact integer arithmetic.
-/

/-- Python's floor division `//` on integers. -/
def pydiv (a b : Int) : Int := Int.fdiv a b

/-- An RGBA color, one component per channel, as PIL color 4-tuples. -/
structure Color where
  r : Int
  g : Int
  b : Int
  a : Int
deriving DecidableEq

/-- The in-memory raster of `PIL.Image`: mode string, dimensions, pixels. -/
structure PILImage where
  mode : String
  width : Int
  height : Int
  px : Int → Int → Color

/-- `Image.new(mode, (w, h), color)`: constant raster of the given color. -/
def image_new (mode : String) (w h : Int) (c : Color) : PILImage :=
  ⟨mode, w, h, fun _ _ => c⟩

/-- One drawing call of `ImageDraw`: the script uses `ellipse` and `line`. -/
inductive DrawCmd where
  | ellipse (x0 y0 x1 y1 : Int) (fill outline : Color) (width : Int)
  | line (xa ya xb yb : Int) (fill : Color) (width : Int)
deriving DecidableEq

/-- Whether pixel `(x, y)` lies inside the ellipse inscribed in the
bounding box `[x0, y0, x1, y1]` (coordinates doubled to stay integral). -/
def inEllipse (x0 y0 x1 y1 x y : Int) : Bool :=
  (2*x - (x0+x1)) * (2*x - (x0+x1)) * ((y1-y0) * (y1-y0))
    + (2*y - (y0+y1)) * (2*y - (y0+y1)) * ((x1-x0) * (x1-x0))
    ≤ ((x1-x0) * (x1-x0)) * ((y1-y0) * (y1-y0))

/-- Squared distance from pixel `(x, y)` to the axis-aligned box
`[xlo, xhi] × [ylo, yhi]`. -/
def distSqToBox (xlo xhi ylo yhi x y : Int) : Int :=
  let dx := max 0 (max (xlo - x) (x - xhi))
  let dy := max 0 (max (ylo - y) (y - yhi))
  dx * dx + dy * dy

/-- Whether pixel `(x, y)` is covered by the stroke of width `w` of the
axis-aligned segment `(xa, ya)-(xb, yb)`: within distance `w/2` of it. -/
def onLine (xa ya xb yb w x y : Int) : Bool :=
  4 * distSqToBox (min xa xb) (max xa xb) (min ya yb) (max ya yb) x y ≤ w * w

/-- Raster effect of one drawing call on the image, later calls painting
over earlier ones.  `ellipse` paints `fill` strictly inside and the
`outline` color on the inward boundary band of the given width; `line`
paints `fill` on the covered pixels. -/
def apply_cmd (img : PILImage) : DrawCmd → PILImage
  | .ellipse x0 y0 x1 y1 f o w =>
      { img with px := fun x y =>
          if inEllipse x0 y0 x1 y1 x y then
            if inEllipse (x0+w) (y0+w) (x1-w) (y1-w) x y then f else o
          else img.px x y }
  | .line xa ya xb yb c w =>
      { img with px := fun x y =>
          if onLine xa ya xb yb w x y then c else img.px x y }

/-- The exact sequence of drawing calls issued by `create_icon(size, _)`:
the background circle, three horizontal network lines, two vertical
connecting lines, with the arguments of the source. -/
def create_icon_cmds (size : Int) : List DrawCmd :=
  let margin := pydiv size 8
  let center := pydiv size 2
  let line_width := max 1 (pydiv size 16)
  [DrawCmd.ellipse margin margin (size - margin) (size - margin)
      ⟨0, 124, 186, 255⟩ ⟨0, 90, 140, 255⟩ 2]
  ++ (List.range 3).map (fun i =>
      DrawCmd.line (center - pydiv size 4) (center - pydiv size 6 + i * pydiv size 6)
                   (center + pydiv size 4) (center - pydiv size 6 + i * pydiv size 6)
                   ⟨255, 255, 255, 255⟩ line_width)
  ++ (List.range 2).map (fun i =>
      DrawCmd.line (center - pydiv size 8 + i * pydiv size 4) (center - pydiv size 6)
                   (center - pydiv size 8 + i * pydiv size 4) (center + pydiv size 6)
                   ⟨255, 255, 255, 255⟩ line_width)

/-- The raster produced by `create_icon(size, _)` before saving: the
drawing calls applied in order to the fresh transparent RGBA canvas. -/
def create_icon_img (size : Int) : PILImage :=
  (create_icon_cmds size).foldl apply_cmd (image_new "RGBA" size size ⟨0, 0, 0, 0⟩)

/-- What `create_icon(size, filename)` writes: the PNG at `filename`
holds exactly the drawn raster. -/
def create_icon_output (size : Int) (filename : String) : String × PILImage :=
  (filename, create_icon_img size)

/-- The calls `main()` performs: for each size in `[16, 32, 48, 128]`,
`create_icon(size, f"icon{size}.png")`. -/
def main_calls : List (Int × String) :=
  [16, 32, 48, 128].map (fun size => (size, "icon" ++ toString size ++ ".png"))

/-- The white-filled line segments among the drawing calls of
`create_icon(size, _)`, in drawing order. -/
def white_line_cmds (size : Int) : List DrawCmd :=
  (create_icon_cmds size).filter (fun c =>
    match c with
    | .line _ _ _ _ f _ => decide (f = ⟨255, 255, 255, 255⟩)
    | _ => false)

/-- `create_icon` with its two fallible library calls made explicit:
`new` stands for `Image.new` (which may raise, e.g. on an invalid size)
and `save` for `img.save` (which may raise, e.g. on an unwritable path).
The body performs no `try`/`except`: any error of either call is returned
unchanged. -/
def create_icon_run (new : Int → Except String PILImage)
    (save : PILImage → String → Except String Unit)
    (size : Int) (filename : String) : Except String Unit := do
  let img ← new size
  let img := (create_icon_cmds size).foldl apply_cmd img
  save img filename

/-- `main` with the same fallible library calls: it loops over the four
sizes calling `create_icon`, with no `try`/`except`, so the first error
aborts the remaining iterations and is returned unchanged. -/
def main_run (new : Int → Except String PILImage)
    (save : PILImage → String → Except String Unit) : Except String Unit :=
  main_calls.forM (fun p => create_icon_run new save p.1 p.2)

/-- Validity of one drawing call on a `size × size` canvas: an ellipse
bounding box is well-formed (low corner at most high corner, hence
`margin ≤ size - margin` for the circle), and line endpoints lie within
the canvas bounds `[0, size)`. -/
def cmd_valid (size : Int) : DrawCmd → Bool
  | .ellipse x0 y0 x1 y1 _ _ _ => decide (x0 ≤ x1) && decide (y0 ≤ y1)
  | .line xa ya xb yb _ _ =>
      decide (0 ≤ xa) && decide (xa < size) && decide (0 ≤ ya) && decide (ya < size) &&
      decide (0 ≤ xb) && decide (xb < size) && decide (0 ≤ yb) && decide (yb < size)

/-- Floor division by the positive constant 2 is Euclidean division. -/
theorem pydiv_two (a : Int) : pydiv a 2 = a / 2 := Int.fdiv_eq_ediv a (by decide)

/-- Floor division by the positive constant 4 is Euclidean division. -/
theorem pydiv_four (a : Int) : pydiv a 4 = a / 4 := Int.fdiv_eq_ediv a (by decide)

/-- Floor division by the positive constant 6 is Euclidean division. -/
theorem pydiv_six (a : Int) : pydiv a 6 = a / 6 := Int.fdiv_eq_ediv a (by decide)

/-- Floor division by the positive constant 8 is Euclidean division. -/
theorem pydiv_eight (a : Int) : pydiv a 8 = a / 8 := Int.fdiv_eq_ediv a (by decide)

/-- Floor division by the positive constant 16 is Euclidean division. -/
theorem pydiv_sixteen (a : Int) : pydiv a 16 = a / 16 := Int.fdiv_eq_ediv a (by decide)

/-- `create_icon_cmds` unfolded to its six explicit commands: the circle,
the three horizontal lines at `center - size//6`, `center`, `center + size//6`,
and the two vertical lines at `center - size//8` and `center - size//8 + size//4`. -/
theorem create_icon_cmds_eq (size : Int) :
    create_icon_cmds size =
      [DrawCmd.ellipse (pydiv size 8) (pydiv size 8) (size - pydiv size 8) (size - pydiv size 8)
          ⟨0, 124, 186, 255⟩ ⟨0, 90, 140, 255⟩ 2,
       DrawCmd.line (pydiv size 2 - pydiv size 4) (pydiv size 2 - pydiv size 6)
          (pydiv size 2 + pydiv size 4) (pydiv size 2 - pydiv size 6)
          ⟨255, 255, 255, 255⟩ (max 1 (pydiv size 16)),
       DrawCmd.line (pydiv size 2 - pydiv size 4) (pydiv size 2)
          (pydiv size 2 + pydiv size 4) (pydiv size 2)
          ⟨255, 255, 255, 255⟩ (max 1 (pydiv size 16)),
       DrawCmd.line (pydiv size 2 - pydiv size 4) (pydiv size 2 + pydiv size 6)
          (pydiv size 2 + pydiv size 4) (pydiv size 2 + pydiv size 6)
          ⟨255, 255, 255, 255⟩ (max 1 (pydiv size 16)),
       DrawCmd.line (pydiv size 2 - pydiv size 8) (pydiv size 2 - pydiv size 6)
          (pydiv size 2 - pydiv size 8) (pydiv size 2 + pydiv size 6)
          ⟨255, 255, 255, 255⟩ (max 1 (pydiv size 16)),
       DrawCmd.line (pydiv size 2 - pydiv size 8 + pydiv size 4) (pydiv size 2 - pydiv size 6)
          (pydiv size 2 - pydiv size 8 + pydiv size 4) (pydiv size 2 + pydiv size 6)
          ⟨255, 255, 255, 255⟩ (max 1 (pydiv size 16))] := by
  simp [create_icon_cmds, List.range_succ]
  ring

/-- C1: `main()` invokes the renderer exactly on sizes 16, 32, 48, 128 with
filenames `icon16.png`, `icon32.png`, `icon48.png`, `icon128.png`, and for
each of those sizes the produced raster is an RGBA image of dimensions
`(size, size)`. -/
theorem c1_main_sizes_and_rgba_dims :
    main_calls = [(16, "icon16.png"), (32, "icon32.png"), (48, "icon48.png"), (128, "icon128.png")]
    ∧ ((create_icon_img 16).mode = "RGBA" ∧ (create_icon_img 16).width = 16 ∧ (create_icon_img 16).height = 16)
    ∧ ((create_icon_img 32).mode = "RGBA" ∧ (create_icon_img 32).width = 32 ∧ (create_icon_img 32).height = 32)
    ∧ ((create_icon_img 48).mode = "RGBA" ∧ (create_icon_img 48).width = 48 ∧ (create_icon_img 48).height = 48)
    ∧ ((create_icon_img 128).mode = "RGBA" ∧ (create_icon_img 128).width = 128 ∧ (create_icon_img 128).height = 128) :=
  ⟨by decide, ⟨rfl, rfl, rfl⟩, ⟨rfl, rfl, rfl⟩, ⟨rfl, rfl, rfl⟩, ⟨rfl, rfl, rfl⟩⟩

/-- C2: for every positive size, the white segments drawn by `create_icon`
are exactly the three horizontal segments at `y = center - size//6`,
`y = center`, `y = center + size//6` (adjacent ones `size//6` apart, the
middle one at `y = center`), each spanning `x` from `center - size//4` to
`center + size//4`, plus the two vertical segments at `x = center - size//8`
and `x = center - size//8 + size//4` whose endpoints have exactly the
`y`-coordinates of the topmost and bottommost horizontal segments. -/
theorem c2_white_segments (size : Int) (h : 0 < size) :
    white_line_cmds size =
      [DrawCmd.line (pydiv size 2 - pydiv size 4) (pydiv size 2 - pydiv size 6)
          (pydiv size 2 + pydiv size 4) (pydiv size 2 - pydiv size 6)
          ⟨255, 255, 255, 255⟩ (max 1 (pydiv size 16)),
       DrawCmd.line (pydiv size 2 - pydiv size 4) (pydiv size 2)
          (pydiv size 2 + pydiv size 4) (pydiv size 2)
          ⟨255, 255, 255, 255⟩ (max 1 (pydiv size 16)),
       DrawCmd.line (pydiv size 2 - pydiv size 4) (pydiv size 2 + pydiv size 6)
          (pydiv size 2 + pydiv size 4) (pydiv size 2 + pydiv size 6)
          ⟨255, 255, 255, 255⟩ (max 1 (pydiv size 16)),
       DrawCmd.line (pydiv size 2 - pydiv size 8) (pydiv size 2 - pydiv size 6)
          (pydiv size 2 - pydiv size 8) (pydiv size 2 + pydiv size 6)
          ⟨255, 255, 255, 255⟩ (max 1 (pydiv size 16)),
       DrawCmd.line (pydiv size 2 - pydiv size 8 + pydiv size 4) (pydiv size 2 - pydiv size 6)
          (pydiv size 2 - pydiv size 8 + pydiv size 4) (pydiv size 2 + pydiv size 6)
          ⟨255, 255, 255, 255⟩ (max 1 (pydiv size 16))] := by
  simp [white_line_cmds, create_icon_cmds_eq]

/-- C2 witness at size 16. -/
theorem c2_white_segments_witness :
    white_line_cmds 16 =
      [DrawCmd.line 4 6 12 6 ⟨255, 255, 255, 255⟩ 1,
       DrawCmd.line 4 8 12 8 ⟨255, 255, 255, 255⟩ 1,
       DrawCmd.line 4 10 12 10 ⟨255, 255, 255, 255⟩ 1,
       DrawCmd.line 6 6 6 10 ⟨255, 255, 255, 255⟩ 1,
       DrawCmd.line 10 6 10 10 ⟨255, 255, 255, 255⟩ 1] :=
  c2_white_segments 16 (by decide)

/-- C3, counterexample: at size 9 the inset actually used is
`9 // 8 = 1`, which is not exactly one-eighth of 9. -/
theorem c3_margin_counterexample :
    (create_icon_cmds 9).head? =
      some (DrawCmd.ellipse (pydiv 9 8) (pydiv 9 8) (9 - pydiv 9 8) (9 - pydiv 9 8)
        ⟨0, 124, 186, 255⟩ ⟨0, 90, 140, 255⟩ 2)
    ∧ pydiv 9 8 = 1 ∧ 8 * pydiv 9 8 ≠ 9 := by decide

/-- C3, amended: for every positive size the ellipse is drawn on the
bounding box `[margin, margin, size - margin, size - margin]` with
`margin = size // 8` (the floor of one-eighth), and the inset equals
exactly one-eighth of the size whenever 8 divides the size — in
particular for all four production sizes. -/
theorem c3_margin_eighth (size : Int) (h : 0 < size) :
    (create_icon_cmds size).head? =
      some (DrawCmd.ellipse (pydiv size 8) (pydiv size 8) (size - pydiv size 8) (size - pydiv size 8)
        ⟨0, 124, 186, 255⟩ ⟨0, 90, 140, 255⟩ 2)
    ∧ (8 ∣ size → 8 * pydiv size 8 = size) := by
  rw [create_icon_cmds_eq]
  exact ⟨rfl, by simp only [pydiv_eight]; omega⟩

/-- C3 witness at size 16. -/
theorem c3_margin_eighth_witness :
    (create_icon_cmds 16).head? =
      some (DrawCmd.ellipse 2 2 14 14 ⟨0, 124, 186, 255⟩ ⟨0, 90, 140, 255⟩ 2)
    ∧ (8 ∣ (16 : Int) → 8 * pydiv 16 8 = 16) :=
  c3_margin_eighth 16 (by decide)

/-- C4: the renderer is deterministic — two invocations on equal size and
path produce identical output (the drawing starts from the fixed
transparent canvas and embeds no randomness or timestamps, so the saved
raster, hence its PNG encoding, is a function of the inputs alone). -/
theorem c4_deterministic (s1 s2 : Int) (f1 f2 : String)
    (hs : s1 = s2) (hf : f1 = f2) :
    create_icon_output s1 f1 = create_icon_output s2 f2 := by
  subst hs; subst hf; rfl

/-- C4 witness at size 16. -/
theorem c4_deterministic_witness :
    create_icon_output 16 "icon16.png" = create_icon_output 16 "icon16.png" :=
  c4_deterministic 16 16 "icon16.png" "icon16.png" rfl rfl

/-- C5: for every size in {16, 32, 48, 128}, the four corner pixels of the
produced image are the untouched transparent background `(0, 0, 0, 0)`. -/
theorem c5_corners_transparent :
    ((create_icon_img 16).px 0 0 = ⟨0, 0, 0, 0⟩ ∧ (create_icon_img 16).px 0 15 = ⟨0, 0, 0, 0⟩
      ∧ (create_icon_img 16).px 15 0 = ⟨0, 0, 0, 0⟩ ∧ (create_icon_img 16).px 15 15 = ⟨0, 0, 0, 0⟩)
    ∧ ((create_icon_img 32).px 0 0 = ⟨0, 0, 0, 0⟩ ∧ (create_icon_img 32).px 0 31 = ⟨0, 0, 0, 0⟩
      ∧ (create_icon_img 32).px 31 0 = ⟨0, 0, 0, 0⟩ ∧ (create_icon_img 32).px 31 31 = ⟨0, 0, 0, 0⟩)
    ∧ ((create_icon_img 48).px 0 0 = ⟨0, 0, 0, 0⟩ ∧ (create_icon_img 48).px 0 47 = ⟨0, 0, 0, 0⟩
      ∧ (create_icon_img 48).px 47 0 = ⟨0, 0, 0, 0⟩ ∧ (create_icon_img 48).px 47 47 = ⟨0, 0, 0, 0⟩)
    ∧ ((create_icon_img 128).px 0 0 = ⟨0, 0, 0, 0⟩ ∧ (create_icon_img 128).px 0 127 = ⟨0, 0, 0, 0⟩
      ∧ (create_icon_img 128).px 127 0 = ⟨0, 0, 0, 0⟩ ∧ (create_icon_img 128).px 127 127 = ⟨0, 0, 0, 0⟩) := by
  decide

/-- C6: for every size in {16, 32, 48, 128}, the produced image contains
at least one pixel of the circle fill color `(0, 124, 186, 255)` and at
least one fully white pixel `(255, 255, 255, 255)` from the drawn lines. -/
theorem c6_fill_and_white_pixels :
    ((∃ x y, 0 ≤ x ∧ x < 16 ∧ 0 ≤ y ∧ y < 16 ∧ (create_icon_img 16).px x y = ⟨0, 124, 186, 255⟩)
      ∧ (∃ x y, 0 ≤ x ∧ x < 16 ∧ 0 ≤ y ∧ y < 16 ∧ (create_icon_img 16).px x y = ⟨255, 255, 255, 255⟩))
    ∧ ((∃ x y, 0 ≤ x ∧ x < 32 ∧ 0 ≤ y ∧ y < 32 ∧ (create_icon_img 32).px x y = ⟨0, 124, 186, 255⟩)
      ∧ (∃ x y, 0 ≤ x ∧ x < 32 ∧ 0 ≤ y ∧ y < 32 ∧ (create_icon_img 32).px x y = ⟨255, 255, 255, 255⟩))
    ∧ ((∃ x y, 0 ≤ x ∧ x < 48 ∧ 0 ≤ y ∧ y < 48 ∧ (create_icon_img 48).px x y = ⟨0, 124, 186, 255⟩)
      ∧ (∃ x y, 0 ≤ x ∧ x < 48 ∧ 0 ≤ y ∧ y < 48 ∧ (create_icon_img 48).px x y = ⟨255, 255, 255, 255⟩))
    ∧ ((∃ x y, 0 ≤ x ∧ x < 128 ∧ 0 ≤ y ∧ y < 128 ∧ (create_icon_img 128).px x y = ⟨0, 124, 186, 255⟩)
      ∧ (∃ x y, 0 ≤ x ∧ x < 128 ∧ 0 ≤ y ∧ y < 128 ∧ (create_icon_img 128).px x y = ⟨255, 255, 255, 255⟩)) :=
  ⟨⟨⟨8, 11, by decide⟩, ⟨8, 8, by decide⟩⟩,
   ⟨⟨16, 25, by decide⟩, ⟨16, 16, by decide⟩⟩,
   ⟨⟨24, 38, by decide⟩, ⟨24, 24, by decide⟩⟩,
   ⟨⟨64, 100, by decide⟩, ⟨64, 64, by decide⟩⟩⟩

/-- C7: for every positive size, every drawing call of `create_icon` is
valid on the `size × size` canvas: the ellipse bounding box satisfies
`margin ≤ size - margin`, and every line endpoint lies within `[0, size)`;
so any positive size is a safe input, not only 16/32/48/128. -/
theorem c7_drawing_safe (size : Int) (h : 0 < size) :
    ∀ cmd ∈ create_icon_cmds size, cmd_valid size cmd = true := by
  intro cmd hmem
  rw [create_icon_cmds_eq] at hmem
  simp only [List.mem_cons, List.not_mem_nil, or_false] at hmem
  rcases hmem with rfl | rfl | rfl | rfl | rfl | rfl <;>
    simp only [cmd_valid, Bool.and_eq_true, decide_eq_true_eq,
      pydiv_two, pydiv_four, pydiv_six, pydiv_eight, pydiv_sixteen] <;>
    omega

/-- C7 witness: the circle call at size 16 is valid. -/
theorem c7_drawing_safe_witness :
    cmd_valid 16 (DrawCmd.ellipse 2 2 14 14 ⟨0, 124, 186, 255⟩ ⟨0, 90, 140, 255⟩ 2) = true :=
  c7_drawing_safe 16 (by decide) _ (by decide)

/-- In the `Except` monad, a loop over a list of actions returns the
error of the first failing action unchanged: if every action before some
position succeeds and the action at that position fails with `e`, the
whole loop returns `Except.error e`. -/
theorem forM_first_error {α : Type} (f : α → Except String Unit) :
    ∀ (pre : List α) (p : α) (post : List α) (e : String),
      (∀ q ∈ pre, f q = Except.ok ()) → f p = Except.error e →
      (pre ++ p :: post).forM f = Except.error e := by
  intro pre
  induction pre with
  | nil =>
    intro p post e _ hp
    simp only [List.nil_append, List.forM_cons', hp]
    rfl
  | cons a t ih =>
    intro p post e hpre hp
    have ha : f a = Except.ok () := hpre a (by simp)
    simp only [List.cons_append, List.forM_cons', ha]
    exact ih p post e (fun q hq => hpre q (by simp [hq])) hp

/-- C8: neither `create_icon` nor `main` catches or classifies any error:
an error from `Image.new` or from `img.save` is returned unchanged from
`create_icon`, and whichever `create_icon` call is the first to fail — at
any of the four iterations — aborts `main` with that same error,
unchanged: no recovery or retry. -/
theorem c8_error_propagation :
    (∀ new save size filename e, new size = Except.error e →
        create_icon_run new save size filename = Except.error e)
    ∧ (∀ new save size filename img e, new size = Except.ok img →
        save ((create_icon_cmds size).foldl apply_cmd img) filename = Except.error e →
        create_icon_run new save size filename = Except.error e)
    ∧ (∀ new save e pre p post, main_calls = pre ++ p :: post →
        (∀ q ∈ pre, create_icon_run new save q.1 q.2 = Except.ok ()) →
        create_icon_run new save p.1 p.2 = Except.error e →
        main_run new save = Except.error e) := by
  refine ⟨?_, ?_, ?_⟩
  · intro new save size filename e h
    simp only [create_icon_run, h]
    rfl
  · intro new save size filename img e h1 h2
    simp only [create_icon_run, h1]
    exact h2
  · intro new save e pre p post hsplit hpre hp
    show main_calls.forM (fun q => create_icon_run new save q.1 q.2) = Except.error e
    rw [hsplit]
    exact forM_first_error _ pre p post e hpre hp

/-- C8 witness: with `Image.new` failing only at size 48 (so the first
two iterations succeed), both the size-48 `create_icon` call and `main`
return that same error. -/
theorem c8_error_propagation_witness :
    create_icon_run
        (fun s => if s = 48 then Except.error "boom"
          else Except.ok (image_new "RGBA" s s ⟨0, 0, 0, 0⟩))
        (fun _ _ => Except.ok ()) 48 "icon48.png" = Except.error "boom"
    ∧ main_run
        (fun s => if s = 48 then Except.error "boom"
          else Except.ok (image_new "RGBA" s s ⟨0, 0, 0, 0⟩))
        (fun _ _ => Except.ok ()) = Except.error "boom" := by
  have h1 := c8_error_propagation.1
    (fun s => if s = 48 then Except.error "boom"
      else Except.ok (image_new "RGBA" s s ⟨0, 0, 0, 0⟩))
    (fun _ _ => Except.ok ()) 48 "icon48.png" "boom" rfl
  refine ⟨h1, c8_error_propagation.2.2
    (fun s => if s = 48 then Except.error "boom"
      else Except.ok (image_new "RGBA" s s ⟨0, 0, 0, 0⟩))
    (fun _ _ => Except.ok ()) "boom"
    [(16, "icon16.png"), (32, "icon32.png")] (48, "icon48.png") [(128, "icon128.png")]
    (by decide) ?_ h1⟩
  intro q hq
  simp only [List.mem_cons, List.not_mem_nil, or_false] at hq
  rcases hq with rfl | rfl <;> rfl

/-- C9: for every positive size, every line segment of `create_icon` is
drawn with stroke width `max(1, size // 16)`, which is at least 1; for
size 16 that width is exactly 1. -/
theorem c9_line_width (size : Int) (h : 0 < size) :
    (∀ xa ya xb yb f w, DrawCmd.line xa ya xb yb f w ∈ create_icon_cmds size →
        w = max 1 (pydiv size 16) ∧ 1 ≤ w)
    ∧ max 1 (pydiv 16 16) = 1 := by
  constructor
  · intro xa ya xb yb f w hmem
    rw [create_icon_cmds_eq] at hmem
    simp only [List.mem_cons, List.not_mem_nil, or_false] at hmem
    rcases hmem with h' | h' | h' | h' | h' | h'
    · exact absurd h' (by simp)
    all_goals
      injection h' with e1 e2 e3 e4 e5 e6
    all_goals
      subst e6
    all_goals
      exact ⟨rfl, le_max_left 1 _⟩
  · decide

/-- C9 witness: the first horizontal line at size 16 has width 1. -/
theorem c9_line_width_witness :
    ((1 : Int) = max 1 (pydiv 16 16) ∧ (1 : Int) ≤ 1) :=
  (c9_line_width 16 (by decide)).1 4 6 12 6 ⟨255, 255, 255, 255⟩ 1 (by decide)

/-- C10: for every positive size, the circle outline is drawn with color
`(0, 90, 140, 255)` and constant width 2, independent of the size. -/
theorem c10_outline_constant (size : Int) (h : 0 < size) :
    ∀ x0 y0 x1 y1 f o w, DrawCmd.ellipse x0 y0 x1 y1 f o w ∈ create_icon_cmds size →
      o = ⟨0, 90, 140, 255⟩ ∧ w = 2 := by
  intro x0 y0 x1 y1 f o w hmem
  rw [create_icon_cmds_eq] at hmem
  simp only [List.mem_cons, List.not_mem_nil, or_false] at hmem
  rcases hmem with h' | h' | h' | h' | h' | h'
  · injection h' with e1 e2 e3 e4 e5 e6 e7
    subst e6; subst e7
    exact ⟨rfl, rfl⟩
  all_goals
    exact absurd h' (by simp)

/-- C10 witness at size 16. -/
theorem c10_outline_constant_witness :
    (⟨0, 90, 140, 255⟩ : Color) = ⟨0, 90, 140, 255⟩ ∧ (2 : Int) = 2 :=
  c10_outline_constant 16 (by decide) 2 2 14 14 ⟨0, 124, 186, 255⟩ ⟨0, 90, 140, 255⟩ 2 (by decide)
